import Mathlib

/-!
# Verification of the currency-resolution and conversion pipeline

Shallow embedding of `src/hooks/useCurrencyConverter.ts` (react-currency-localizer).

Modelling conventions:
* JS numbers are modelled as exact rationals (`ℚ`).
* JS `undefined`/`null` for optional values are modelled as `Option`; where the
  source distinguishes `null` from `undefined` (the rate read
  `exchangeData.conversion_rates[localCurrency]`, which is `undefined` when the
  key is absent but `null` when the guard fails) we use the three-valued `JSRate`.
* A TanStack-Query result (`data`, `error`, `isLoading`) is a free `QueryState`;
  the pipeline body is a pure function of the two query states, the hook's own
  `localCurrency` state and the props, exactly as the source computes its
  snapshot on each render.
* JS truthiness on strings (`!upperManualCurrency`, `!!localCurrency`,
  `geoData?.currency` as a condition) is `truthyS`: a string is falsy iff empty.
* `String.prototype.toUpperCase` is modelled by `jsToUpper`, character-wise
  upper-casing of the code points.
-/

/-- An `Error` value: only the message is observable in the pipeline. -/
structure Err where
  message : String
deriving DecidableEq, Repr

/-- Payload of the geolocation service (`GeolocationResponse` in `src/types`),
as delivered by the query function on success. -/
structure GeolocationResponse where
  currency : String
  countryCode : Option String
deriving DecidableEq, Repr

/-- Payload of the exchange-rate service (`ExchangeRateResponse` in `src/types`),
as delivered by the query function on success. -/
structure ExchangeRateResponse where
  base_code : String
  conversion_rates : List (String × ℚ)
deriving DecidableEq, Repr

/-- The observable part of a TanStack-Query `useQuery` result used by the hook:
`data`, `error` and `isLoading`. -/
structure QueryState (α : Type) where
  data : Option α
  error : Option Err
  isLoading : Bool
deriving DecidableEq, Repr

/-- A query cell with no data, no error and not loading (the state of a query
that has never run, e.g. because its `enabled` gate is false on a fresh cache). -/
def freshQuery (α : Type) : QueryState α :=
  { data := none, error := none, isLoading := false }

/-- Hook inputs (`UseCurrencyConverterOptions` minus the callbacks, which are
supplied per render in the notification model below). `apiKey = none` models a
JS `undefined` credential. -/
structure Inputs where
  basePrice : ℚ
  baseCurrency : String
  apiKey : Option String
  manualCurrency : Option String
deriving DecidableEq, Repr

/-- The snapshot returned by the hook (`CurrencyResult` in `src/types`). -/
structure CurrencyResult where
  convertedPrice : Option ℚ
  localCurrency : Option String
  baseCurrency : String
  exchangeRate : Option ℚ
  isLoading : Bool
  error : Option Err
deriving DecidableEq, Repr

/-- JS string truthiness: `undefined`/`null` and the empty string are falsy. -/
def truthyS : Option String → Bool
  | none => false
  | some s => !(s == "")

/-- Character-wise upper-casing, the model of `String.prototype.toUpperCase`
for the (ASCII) currency codes the pipeline handles. -/
def jsToUpper (s : String) : String :=
  ⟨s.data.map Char.toUpper⟩

/-- `const upperBaseCurrency = baseCurrency.toUpperCase()` (line 32). -/
def upperBase (i : Inputs) : String :=
  jsToUpper i.baseCurrency

/-- `const upperManualCurrency = manualCurrency?.toUpperCase()` (line 33). -/
def upperManual (i : Inputs) : Option String :=
  i.manualCurrency.map jsToUpper

/-- Message of the credential-validation error (line 43). -/
def apiKeyMissingMessage : String :=
  "API key is missing. Please provide a valid key from exchangerate-api.com."

/-- Model of `String.prototype.trim`: drop leading and trailing whitespace. -/
def jsTrim (s : String) : String :=
  ⟨((s.data.dropWhile Char.isWhitespace).reverse.dropWhile Char.isWhitespace).reverse⟩

/-- `apiKeyError` (lines 41-46): `if (!apiKey || apiKey.trim() === '') ...`. -/
def apiKeyError (i : Inputs) : Option Err :=
  match i.apiKey with
  | none => some ⟨apiKeyMissingMessage⟩
  | some k => if k == "" || jsTrim k == "" then some ⟨apiKeyMissingMessage⟩ else none

/-- `enabled` gate of the geolocation query (line 83):
`!upperManualCurrency && !apiKeyError`. TanStack Query only invokes the query
function (and hence issues the network fetch) when this is true. -/
def geoEnabled (i : Inputs) : Bool :=
  !(truthyS (upperManual i)) && (apiKeyError i).isNone

/-- `enabled` gate of the exchange-rate query (line 123):
`!!localCurrency && !apiKeyError`. -/
def exchangeEnabled (i : Inputs) (localCurrency : Option String) : Bool :=
  truthyS localCurrency && (apiKeyError i).isNone

/-- Initial value of the `localCurrency` state (lines 36-38):
`useState(upperManualCurrency || null)`. -/
def initLocalCurrency (i : Inputs) : Option String :=
  if truthyS (upperManual i) then upperManual i else none

/-- Body of the `localCurrency` update effect (lines 135-141):
`if (upperManualCurrency) set(...) else if (geoData?.currency) set(...)`. -/
def updLocalCurrency (um : Option String) (geoCur : Option String)
    (lc : Option String) : Option String :=
  if truthyS um then um
  else if truthyS geoCur then geoCur
  else lc

/-- JS object read `table[c]`: first binding wins, `undefined` when absent. -/
def lookupRate (c : String) (table : List (String × ℚ)) : Option ℚ :=
  (table.find? (fun p => p.1 == c)).map (fun p => p.2)

/-- The value `exchangeData.conversion_rates[localCurrency]` can be a number,
`undefined` (key absent) or — when the guard fails — `null`. -/
inductive JSRate
  | jnull
  | jundef
  | jnum (q : ℚ)
deriving DecidableEq, Repr

/-- `const exchangeRate = localCurrency && exchangeData?.conversion_rates ?
exchangeData.conversion_rates[localCurrency] : null` (lines 144-146). -/
def exchangeRateRaw (lc : Option String) (exData : Option ExchangeRateResponse) : JSRate :=
  match lc, exData with
  | some c, some d =>
      if c == "" then JSRate.jnull
      else
        match lookupRate c d.conversion_rates with
        | some q => JSRate.jnum q
        | none => JSRate.jundef
  | _, _ => JSRate.jnull

/-- Message of the currency-mismatch error (line 151); `\x27` is a single quote. -/
def mismatchMessage (c : String) : String :=
  "Currency \x27" ++ c ++
    "\x27 was detected from your location but is not supported by the exchange rate provider."

/-- `currencyMismatchError` (lines 149-154): fires when `localCurrency` is
truthy, `exchangeData.conversion_rates` is present and the code is not a key. -/
def currencyMismatchError (lc : Option String)
    (exData : Option ExchangeRateResponse) : Option Err :=
  match lc, exData with
  | some c, some d =>
      if !(c == "") && (lookupRate c d.conversion_rates).isNone then
        some ⟨mismatchMessage c⟩
      else none
  | _, _ => none

/-- `const isLoading = isGeoLoading || (isExchangeLoading && !!localCurrency)`
(line 157). -/
def isLoadingCalc (g : QueryState GeolocationResponse)
    (e : QueryState ExchangeRateResponse) (lc : Option String) : Bool :=
  g.isLoading || (e.isLoading && truthyS lc)

/-- `const error = geoError || exchangeError || currencyMismatchError ||
apiKeyError` (line 158): the first truthy value in that textual order. -/
def errorCalc (i : Inputs) (g : QueryState GeolocationResponse)
    (e : QueryState ExchangeRateResponse) (lc : Option String) : Option Err :=
  match g.error with
  | some x => some x
  | none =>
    match e.error with
    | some x => some x
    | none =>
      match currencyMismatchError lc e.data with
      | some x => some x
      | none => apiKeyError i

/-- ECMAScript `toFixed(2)` on the exact value (Number.prototype.toFixed):
the algorithm splits off the sign first, then picks the integer `n` with
`n / 100` closest to the magnitude, the larger `n` on ties — so ties resolve
away from zero (e.g. -0.125 prints as -0.13). This is what
`parseFloat((…).toFixed(2))` produces (line 161). -/
def toFixed2 (x : ℚ) : ℚ :=
  if 0 ≤ x then ((⌊x * 100 + 1/2⌋ : ℤ) : ℚ) / 100
  else -(((⌊-x * 100 + 1/2⌋ : ℤ) : ℚ) / 100)

/-- `const convertedPrice = (typeof basePrice === 'number') && exchangeRate !==
null && !currencyMismatchError ? parseFloat((basePrice *
exchangeRate).toFixed(2)) : null` (lines 160-162). `basePrice : ℚ` is always a
number. In the `jundef` branch the source would compute `NaN`; that branch is
unreachable (`exchangeRateRaw_jundef_mismatch` below) and yields `none` here. -/
def convertedPriceCalc (bp : ℚ) (rate : JSRate) (mm : Option Err) : Option ℚ :=
  if rate ≠ JSRate.jnull ∧ mm = none then
    match rate with
    | JSRate.jnum q => some (toFixed2 (bp * q))
    | _ => none
  else none

/-- `exchangeRate || null` in the result object (line 169): the number 0 is
falsy, so a zero rate is reported as `null`. -/
def exchangeRateField (rate : JSRate) : Option ℚ :=
  match rate with
  | JSRate.jnum q => if q = 0 then none else some q
  | _ => none

/-- One evaluation of the hook body (lines 143-172): the snapshot returned for
given props, query states and current `localCurrency` state. -/
def evalSnapshot (i : Inputs) (g : QueryState GeolocationResponse)
    (e : QueryState ExchangeRateResponse) (lc : Option String) : CurrencyResult :=
  { convertedPrice :=
      convertedPriceCalc i.basePrice (exchangeRateRaw lc e.data)
        (currencyMismatchError lc e.data)
    localCurrency := lc
    baseCurrency := upperBase i
    exchangeRate := exchangeRateField (exchangeRateRaw lc e.data)
    isLoading := isLoadingCalc g e lc
    error := errorCalc i g e lc }

/-- The claim-side notion of a found rate: the rate read produced a number. -/
def rateFound (lc : Option String) (exData : Option ExchangeRateResponse) : Prop :=
  ∃ q, exchangeRateRaw lc exData = JSRate.jnum q

/-- The four error sources of the pipeline, in the textual order of line 158. -/
def errorSources (i : Inputs) (g : QueryState GeolocationResponse)
    (e : QueryState ExchangeRateResponse) (lc : Option String) : List (Option Err) :=
  [g.error, e.error, currencyMismatchError lc e.data, apiKeyError i]

/-- How many error sources are present in a given evaluation state. -/
def presentErrorCount (i : Inputs) (g : QueryState GeolocationResponse)
    (e : QueryState ExchangeRateResponse) (lc : Option String) : ℕ :=
  ((errorSources i g e lc).filterMap id).length

/-- The first present error in a list of error slots. -/
def firstPresent (l : List (Option Err)) : Option Err :=
  l.findSome? id

/-- The precedence order the claim states (definition follows the claim's
words, for comparison with the code's order): credential-validation error
first, then geolocation, then rate-fetch, then mismatch. -/
def specClaimedErrorOrder (i : Inputs) (g : QueryState GeolocationResponse)
    (e : QueryState ExchangeRateResponse) (lc : Option String) : Option Err :=
  firstPresent [apiKeyError i, g.error, e.error, currencyMismatchError lc e.data]

/-- The rounding the claim specifies (definition follows the claim's words,
for comparison with `toFixed2`): round to 2 decimal places with ties away
from zero. -/
def specRound2HalfAwayFromZero (x : ℚ) : ℚ :=
  if 0 ≤ x then ((⌊x * 100 + 1/2⌋ : ℤ) : ℚ) / 100
  else -(((⌊-x * 100 + 1/2⌋ : ℤ) : ℚ) / 100)

/-- What one re-evaluation (render) of the hook observes: the two query
results and the callback props of that render. Callback functions are
modelled by numeric identities; a fresh allocation on every render is a
sequence of distinct identities. -/
structure RenderInput where
  geo : QueryState GeolocationResponse
  ex : QueryState ExchangeRateResponse
  onSuccess : Option ℕ
  onError : Option ℕ
deriving DecidableEq, Repr

/-- An observable callback invocation: which callback identity was called and
with which argument. -/
inductive Event
  | success (cb : ℕ) (r : CurrencyResult)
  | failure (cb : ℕ) (e : Err)
deriving DecidableEq, Repr

/-- The hook's per-instance private state between renders: the `localCurrency`
`useState` cell, the two callback refs (lines 49-50), and the dependency
arrays React stored for the three dependency-gated effects (lines 135, 175,
181). `none` deps means the effect has not run yet (fresh mount). Dependency
comparison is modelled by value equality: every dependency slot is either a
primitive (compared by value by `Object.is` in the source) or a memoized
object (`result`, the error objects), whose reference is stable exactly when
its memoization inputs are unchanged. -/
structure HookState where
  localCurrency : Option String
  onSuccessRef : Option ℕ
  onErrorRef : Option ℕ
  lcDeps : Option (Option String × Option String)
  succDeps : Option (Bool × Option Err × Option ℚ × CurrencyResult)
  errDeps : Option (Bool × Option Err)
deriving DecidableEq, Repr

/-- Dependency array of the success-notification effect (line 179):
`[isLoading, error, convertedPrice, result]`. -/
def succDepsOf (snap : CurrencyResult) : Bool × Option Err × Option ℚ × CurrencyResult :=
  (snap.isLoading, snap.error, snap.convertedPrice, snap)

/-- Dependency array of the error-notification effect (line 185):
`[isLoading, error]`. -/
def errDepsOf (snap : CurrencyResult) : Bool × Option Err :=
  (snap.isLoading, snap.error)

/-- Dependency array of the `localCurrency` update effect (line 141):
`[upperManualCurrency, geoData?.currency]`. -/
def lcDepsOf (i : Inputs) (ri : RenderInput) : Option String × Option String :=
  (upperManual i, ri.geo.data.map GeolocationResponse.currency)

/-- The snapshot computed during one render. -/
def snapOf (i : Inputs) (ri : RenderInput) (s : HookState) : CurrencyResult :=
  evalSnapshot i ri.geo ri.ex s.localCurrency

/-- The `localCurrency` state after the update effect of one render: the
effect body (lines 135-141) runs only when its dependencies changed. -/
def newLcOf (i : Inputs) (ri : RenderInput) (s : HookState) : Option String :=
  if s.lcDeps = some (lcDepsOf i ri) then s.localCurrency
  else
    updLocalCurrency (upperManual i) (ri.geo.data.map GeolocationResponse.currency)
      s.localCurrency

/-- Invocations made by the success-notification effect (lines 175-179) on one
render: the body fires only when the dependencies changed, and calls
`onSuccessRef.current`, which the ref-update effect (lines 53-56, declared
first, no dependency array) has already set to this render's `onSuccess`. -/
def succEventsOf (i : Inputs) (ri : RenderInput) (s : HookState) : List Event :=
  if s.succDeps = some (succDepsOf (snapOf i ri s)) then []
  else
    if (snapOf i ri s).isLoading = false ∧ (snapOf i ri s).error = none ∧
        (snapOf i ri s).convertedPrice ≠ none then
      match ri.onSuccess with
      | some cb => [Event.success cb (snapOf i ri s)]
      | none => []
    else []

/-- Invocations made by the error-notification effect (lines 181-185) on one
render. -/
def errEventsOf (i : Inputs) (ri : RenderInput) (s : HookState) : List Event :=
  if s.errDeps = some (errDepsOf (snapOf i ri s)) then []
  else
    match (snapOf i ri s).error, ri.onError with
    | some err, some cb =>
        if (snapOf i ri s).isLoading = false then [Event.failure cb err] else []
    | _, _ => []

/-- One full re-evaluation: render the snapshot, then run the four effects in
declaration order (refs update, `localCurrency` update, success notification,
error notification), recording the new dependency arrays. -/
def renderStep (i : Inputs) (ri : RenderInput) (s : HookState) : HookState × List Event :=
  ({ localCurrency := newLcOf i ri s
     onSuccessRef := ri.onSuccess
     onErrorRef := ri.onError
     lcDeps := some (lcDepsOf i ri)
     succDeps := some (succDepsOf (snapOf i ri s))
     errDeps := some (errDepsOf (snapOf i ri s)) },
   succEventsOf i ri s ++ errEventsOf i ri s)

/-- Run `n` consecutive re-evaluations starting at render index `start`, with
`cfg` giving each render's query states and (freshly allocated) callbacks;
collects all callback invocations in order. -/
def runRenders (i : Inputs) (cfg : ℕ → RenderInput) : ℕ → ℕ → HookState → HookState × List Event
  | _, 0, s => (s, [])
  | start, n+1, s =>
    ((runRenders i cfg (start+1) n (renderStep i (cfg start) s).1).1,
     (renderStep i (cfg start) s).2 ++
       (runRenders i cfg (start+1) n (renderStep i (cfg start) s).1).2)

/-- A hook state whose effects have never run (fresh mount), with a given
`localCurrency` cell; at a true mount the cell is `initLocalCurrency`. -/
def startStateAt (lc : Option String) : HookState :=
  { localCurrency := lc
    onSuccessRef := none
    onErrorRef := none
    lcDeps := none
    succDeps := none
    errDeps := none }

/-- The render sequence of one settled outcome: the geolocation state is
fixed, the exchange query is in state `ep` (pending) before render `k` and in
its settled state `es` from render `k` on, and every render supplies fresh
callback identities `cbS j`, `cbE j`. -/
def settledCfg (g : QueryState GeolocationResponse)
    (ep es : QueryState ExchangeRateResponse) (k : ℕ) (cbS cbE : ℕ → ℕ) :
    ℕ → RenderInput :=
  fun j =>
    { geo := g
      ex := if j < k then ep else es
      onSuccess := some (cbS j)
      onError := some (cbE j) }

/-- A hook state that has recorded the dependency arrays of the current query
states: the state after at least one render with these query states. -/
def Saturated (i : Inputs) (g : QueryState GeolocationResponse)
    (e : QueryState ExchangeRateResponse) (s : HookState) : Prop :=
  s.lcDeps = some (upperManual i, g.data.map GeolocationResponse.currency) ∧
  s.succDeps = some (succDepsOf (evalSnapshot i g e s.localCurrency)) ∧
  s.errDeps = some (errDepsOf (evalSnapshot i g e s.localCurrency))

/-- An undefined rate read (key absent under a truthy currency and present
table) always comes with a mismatch error, so the `NaN` branch of
`convertedPrice` is unreachable. -/
theorem exchangeRateRaw_jundef_mismatch (lc : Option String)
    (exData : Option ExchangeRateResponse)
    (h : exchangeRateRaw lc exData = JSRate.jundef) :
    currencyMismatchError lc exData ≠ none := by
  match lc, exData with
  | none, _ => simp [exchangeRateRaw] at h
  | some c, none => simp [exchangeRateRaw] at h
  | some c, some d =>
    simp only [exchangeRateRaw] at h
    by_cases hc : c == ""
    · simp [hc] at h
    · simp only [hc, if_false, Bool.false_eq_true] at h
      cases hlook : lookupRate c d.conversion_rates with
      | some q => simp [hlook] at h
      | none =>
        simp [currencyMismatchError, hc, hlook]

theorem string_data_append (a b : String) : (a ++ b).data = a.data ++ b.data := by
  cases a
  cases b
  rfl

theorem jsToUpper_ne_empty (m : String) (h : m ≠ "") : jsToUpper m ≠ "" := by
  intro hc
  cases m with
  | mk l =>
    cases l with
    | nil => exact h rfl
    | cons a as =>
      have hd := congrArg String.data hc
      simp [jsToUpper] at hd

theorem truthyS_some_true (s : String) (h : s ≠ "") : truthyS (some s) = true := by
  simp [truthyS, h]

/-- C1 counterexample: a concrete evaluation state with two error sources
present (a blank credential and a currency-mismatch), where the snapshot's
`error` is the mismatch error, not the credential error the claimed
precedence (credential first) would select. The state is reachable: mount
with `manualCurrency = "EUR"` and a blank key while the exchange-rate cache
still holds a table (persisted from an earlier session) lacking `EUR`. -/
theorem error_precedence_claim_counterexample :
    presentErrorCount ⟨100, "USD", none, some ("EUR")⟩ (freshQuery GeolocationResponse)
        ⟨some ⟨"USD", [("USD", 1)]⟩, none, false⟩ (some ("EUR")) = 2 ∧
    (evalSnapshot ⟨100, "USD", none, some ("EUR")⟩ (freshQuery GeolocationResponse)
        ⟨some ⟨"USD", [("USD", 1)]⟩, none, false⟩ (some ("EUR"))).error ≠
      specClaimedErrorOrder ⟨100, "USD", none, some ("EUR")⟩ (freshQuery GeolocationResponse)
        ⟨some ⟨"USD", [("USD", 1)]⟩, none, false⟩ (some ("EUR")) := by
  constructor
  · decide
  · decide

/-- C1 (amended): when more than one error source is present, the snapshot's
`error` is the first one present in the order geolocation error, then
rate-fetch error, then mismatch error, then credential error — i.e. the
textual order of line 158, with the credential error last, not first. -/
theorem error_precedence_follows_code_order (i : Inputs)
    (g : QueryState GeolocationResponse) (e : QueryState ExchangeRateResponse)
    (lc : Option String) (h : 2 ≤ presentErrorCount i g e lc) :
    (evalSnapshot i g e lc).error = firstPresent (errorSources i g e lc) := by
  cases hg : g.error <;> cases he : e.error <;>
    cases hm : currencyMismatchError lc e.data <;>
      cases hk : apiKeyError i <;>
        simp [evalSnapshot, errorCalc, errorSources, firstPresent, hg, he, hm, hk,
          List.findSome?]

/-- C1 witness: the amended precedence theorem applied at a concrete state
with two error sources present. -/
theorem error_precedence_follows_code_order_witness :
    (evalSnapshot ⟨100, "USD", none, some ("EUR")⟩ (freshQuery GeolocationResponse)
        ⟨some ⟨"USD", [("USD", 1)]⟩, none, false⟩ (some ("EUR"))).error =
      firstPresent (errorSources ⟨100, "USD", none, some ("EUR")⟩
        (freshQuery GeolocationResponse)
        ⟨some ⟨"USD", [("USD", 1)]⟩, none, false⟩ (some ("EUR"))) :=
  error_precedence_follows_code_order _ _ _ _ (by decide)

/-- C3 counterexample: a concrete state (blank credential, manual currency,
cached rate table, geolocation query loading) whose snapshot has a non-null
`convertedPrice` together with a non-null `error` and `isLoading = true`,
refuting the claimed equivalence: the `convertedPrice` guard (line 160)
checks neither `error` nor `isLoading`. -/
theorem convertedPrice_invariant_counterexample :
    ¬ (((evalSnapshot ⟨100, "USD", none, some ("EUR")⟩ ⟨none, none, true⟩
          ⟨some ⟨"USD", [("EUR", 9/10)]⟩, none, false⟩ (some ("EUR"))).convertedPrice ≠ none) ↔
        ((evalSnapshot ⟨100, "USD", none, some ("EUR")⟩ ⟨none, none, true⟩
            ⟨some ⟨"USD", [("EUR", 9/10)]⟩, none, false⟩ (some ("EUR"))).isLoading = false ∧
         (evalSnapshot ⟨100, "USD", none, some ("EUR")⟩ ⟨none, none, true⟩
            ⟨some ⟨"USD", [("EUR", 9/10)]⟩, none, false⟩ (some ("EUR"))).error = none ∧
         rateFound (some ("EUR")) (some ⟨"USD", [("EUR", 9/10)]⟩))) := by
  intro hIff
  have hL : (evalSnapshot ⟨100, "USD", none, some ("EUR")⟩ ⟨none, none, true⟩
      ⟨some ⟨"USD", [("EUR", 9/10)]⟩, none, false⟩ (some ("EUR"))).convertedPrice ≠ none := by
    simp [evalSnapshot, convertedPriceCalc, exchangeRateRaw, lookupRate,
      currencyMismatchError]
  exact absurd (hIff.mp hL).1 (by decide)

/-- C3 (amended): in every snapshot, `convertedPrice` is non-null if and only
if the rate read for the resolved currency produced a number and no
currency-mismatch error is present. -/
theorem convertedPrice_nonnull_iff_rate_no_mismatch (i : Inputs)
    (g : QueryState GeolocationResponse) (e : QueryState ExchangeRateResponse)
    (lc : Option String) :
    (evalSnapshot i g e lc).convertedPrice ≠ none ↔
      rateFound lc e.data ∧ currencyMismatchError lc e.data = none := by
  cases hr : exchangeRateRaw lc e.data <;> cases hm : currencyMismatchError lc e.data <;>
    simp [evalSnapshot, convertedPriceCalc, rateFound, hr, hm]

/-- C4: whenever the access key is absent or trims to the empty string, both
query gates are disabled (so neither network fetch is ever issued), and on a
fresh cache the pipeline settles immediately (`isLoading = false`) with the
credential error, whose message contains "API key is missing" and names
exchangerate-api.com as the credential's source. -/
theorem blank_api_key_short_circuits (i : Inputs)
    (h : i.apiKey = none ∨ ∃ k, i.apiKey = some k ∧ jsTrim k = "") :
    geoEnabled i = false ∧
    (∀ lc, exchangeEnabled i lc = false) ∧
    (evalSnapshot i (freshQuery GeolocationResponse) (freshQuery ExchangeRateResponse)
        (initLocalCurrency i)).error = some ⟨apiKeyMissingMessage⟩ ∧
    (evalSnapshot i (freshQuery GeolocationResponse) (freshQuery ExchangeRateResponse)
        (initLocalCurrency i)).isLoading = false ∧
    (∃ pre suf, apiKeyMissingMessage.data = pre ++ ("API key is missing").data ++ suf) ∧
    (∃ pre suf, apiKeyMissingMessage.data = pre ++ ("exchangerate-api.com").data ++ suf) := by
  have hk : apiKeyError i = some ⟨apiKeyMissingMessage⟩ := by
    rcases h with h | ⟨k, hk, ht⟩
    · simp [apiKeyError, h]
    · simp [apiKeyError, hk, ht]
  refine ⟨?_, ?_, ?_, ?_, ?_, ?_⟩
  · simp [geoEnabled, hk]
  · intro lc
    simp [exchangeEnabled, hk]
  · simp [evalSnapshot, errorCalc, freshQuery, currencyMismatchError, hk]
  · cases hlc : initLocalCurrency i <;> simp [evalSnapshot, isLoadingCalc, freshQuery]
  · exact ⟨[], (". Please provide a valid key from exchangerate-api.com.").data, by decide⟩
  · exact ⟨("API key is missing. Please provide a valid key from ").data, (".").data, by decide⟩

/-- C4 witness: the credential short-circuit theorem applied to an absent
key. -/
theorem blank_api_key_short_circuits_witness :
    geoEnabled ⟨100, "USD", none, none⟩ = false ∧
    exchangeEnabled ⟨100, "USD", none, none⟩ (some ("EUR")) = false ∧
    (evalSnapshot ⟨100, "USD", none, none⟩ (freshQuery GeolocationResponse)
        (freshQuery ExchangeRateResponse)
        (initLocalCurrency ⟨100, "USD", none, none⟩)).error = some ⟨apiKeyMissingMessage⟩ ∧
    (evalSnapshot ⟨100, "USD", none, none⟩ (freshQuery GeolocationResponse)
        (freshQuery ExchangeRateResponse)
        (initLocalCurrency ⟨100, "USD", none, none⟩)).isLoading = false :=
  ⟨(blank_api_key_short_circuits _ (Or.inl rfl)).1,
   (blank_api_key_short_circuits _ (Or.inl rfl)).2.1 _,
   (blank_api_key_short_circuits _ (Or.inl rfl)).2.2.1,
   (blank_api_key_short_circuits _ (Or.inl rfl)).2.2.2.1⟩

/-- C5: whenever the resolved currency is a (truthy) code absent from a
successfully fetched rate table — and no geolocation or rate-fetch error is
simultaneously reported — the snapshot's error is the `CurrencyMismatchError`
whose message names that code, `convertedPrice` is null, and `localCurrency`
still carries the unsupported code; and the mismatch check never fires while
the resolved currency or the rate table is still missing. -/
theorem currency_mismatch_reported (i : Inputs) (g : QueryState GeolocationResponse)
    (e : QueryState ExchangeRateResponse) (c : String) (d : ExchangeRateResponse)
    (hc : c ≠ "") (hd : e.data = some d)
    (habs : lookupRate c d.conversion_rates = none)
    (hge : g.error = none) (hee : e.error = none) :
    (evalSnapshot i g e (some c)).error = some ⟨mismatchMessage c⟩ ∧
    (∃ pre suf, (mismatchMessage c).data = pre ++ c.data ++ suf) ∧
    (evalSnapshot i g e (some c)).convertedPrice = none ∧
    (evalSnapshot i g e (some c)).localCurrency = some c ∧
    (∀ lc exd, lc = none ∨ exd = none → currencyMismatchError lc exd = none) := by
  have hmm : currencyMismatchError (some c) e.data = some ⟨mismatchMessage c⟩ := by
    simp [currencyMismatchError, hd, habs, hc]
  refine ⟨?_, ?_, ?_, rfl, ?_⟩
  · simp [evalSnapshot, errorCalc, hge, hee, hmm]
  · refine ⟨("Currency \x27").data,
      ("\x27 was detected from your location but is not supported by the exchange rate provider.").data, ?_⟩
    show (("Currency \x27" ++ c) ++ "\x27 was detected from your location but is not supported by the exchange rate provider.").data = _
    rw [string_data_append, string_data_append]
  · simp [evalSnapshot, convertedPriceCalc, hmm]
  · intro lc exd hor
    rcases hor with h0 | h0
    · subst h0
      cases exd <;> rfl
    · subst h0
      cases lc <;> rfl

/-- C5 witness: the mismatch theorem applied to the code `XYZ` against a
table containing only `USD`. -/
theorem currency_mismatch_reported_witness :
    (evalSnapshot ⟨100, "USD", some ("key"), none⟩ (freshQuery GeolocationResponse)
        ⟨some ⟨"USD", [("USD", 1)]⟩, none, false⟩ (some ("XYZ"))).error =
      some ⟨mismatchMessage ("XYZ")⟩ ∧
    (evalSnapshot ⟨100, "USD", some ("key"), none⟩ (freshQuery GeolocationResponse)
        ⟨some ⟨"USD", [("USD", 1)]⟩, none, false⟩ (some ("XYZ"))).convertedPrice = none ∧
    (evalSnapshot ⟨100, "USD", some ("key"), none⟩ (freshQuery GeolocationResponse)
        ⟨some ⟨"USD", [("USD", 1)]⟩, none, false⟩ (some ("XYZ"))).localCurrency = some ("XYZ") :=
  ⟨(currency_mismatch_reported _ _ _ _ _ (by decide) rfl (by decide) rfl rfl).1,
   (currency_mismatch_reported _ _ _ _ _ (by decide) rfl (by decide) rfl rfl).2.2.1,
   (currency_mismatch_reported _ _ _ _ _ (by decide) rfl (by decide) rfl rfl).2.2.2.1⟩

/-- C6: when a (non-empty) `manualCurrency` is supplied, the geolocation
query's `enabled` gate is false regardless of the credential state, and the
target currency resolves synchronously to the uppercased manual value — both
as the initial `useState` value and as the value the update effect writes. -/
theorem manual_currency_skips_geolocation (i : Inputs) (m : String)
    (hm : i.manualCurrency = some m) (hne : m ≠ "") :
    geoEnabled i = false ∧
    initLocalCurrency i = some (jsToUpper m) ∧
    (∀ gc lc, updLocalCurrency (upperManual i) gc lc = some (jsToUpper m)) := by
  have hup : upperManual i = some (jsToUpper m) := by
    simp [upperManual, hm]
  have htr : truthyS (some (jsToUpper m)) = true :=
    truthyS_some_true _ (jsToUpper_ne_empty _ hne)
  refine ⟨?_, ?_, ?_⟩
  · simp [geoEnabled, hup, htr]
  · simp [initLocalCurrency, hup, htr]
  · intro gc lc
    simp [updLocalCurrency, hup, htr]

/-- C6 witness: the manual-override theorem applied to `manualCurrency = "eur"`. -/
theorem manual_currency_skips_geolocation_witness :
    geoEnabled ⟨100, "usd", none, some ("eur")⟩ = false ∧
    initLocalCurrency ⟨100, "usd", none, some ("eur")⟩ = some (jsToUpper ("eur")) ∧
    updLocalCurrency (upperManual ⟨100, "usd", none, some ("eur")⟩) (some ("USD")) none =
      some (jsToUpper ("eur")) :=
  ⟨(manual_currency_skips_geolocation _ _ rfl (by decide)).1,
   (manual_currency_skips_geolocation _ _ rfl (by decide)).2.1,
   (manual_currency_skips_geolocation _ _ rfl (by decide)).2.2 _ _⟩

/-- C8: the resolved currency starts as null exactly when no manual override
is given; it is set from the manual override or from a geolocation-provided
currency; and the update effect never maps a non-null value back to null —
in particular a later geolocation failure (no currency available) retains
the previous resolution. -/
theorem local_currency_monotone (i : Inputs) (um gc lc : Option String)
    (h : lc ≠ none) :
    (i.manualCurrency = none → initLocalCurrency i = none) ∧
    (∀ m, i.manualCurrency = some m → m ≠ "" → initLocalCurrency i = some (jsToUpper m)) ∧
    updLocalCurrency um gc lc ≠ none ∧
    (truthyS um = true → updLocalCurrency um gc lc = um) ∧
    (truthyS um = false → truthyS gc = true → updLocalCurrency um gc lc = gc) ∧
    (truthyS um = false → gc = none → updLocalCurrency um gc lc = lc) := by
  refine ⟨?_, ?_, ?_, ?_, ?_, ?_⟩
  · intro hman
    simp [initLocalCurrency, upperManual, hman, truthyS]
  · intro m hman hne
    have hup : upperManual i = some (jsToUpper m) := by
      simp [upperManual, hman]
    have htr : truthyS (some (jsToUpper m)) = true :=
      truthyS_some_true _ (jsToUpper_ne_empty _ hne)
    simp [initLocalCurrency, hup, htr]
  · unfold updLocalCurrency
    by_cases h1 : truthyS um = true
    · simp [h1]
      cases um with
      | none => simp [truthyS] at h1
      | some s => simp
    · simp [h1]
      by_cases h2 : truthyS gc = true
      · simp [h2]
        cases gc with
        | none => simp [truthyS] at h2
        | some s => simp
      · simp [h2]
        exact h
  · intro h1
    simp [updLocalCurrency, h1]
  · intro h1 h2
    simp [updLocalCurrency, h1, h2]
  · intro h1 h2
    subst h2
    simp only [updLocalCurrency, h1]
    simp [truthyS]

/-- C8 witness: monotonicity applied at a resolved value with no manual
override and no geolocation data. -/
theorem local_currency_monotone_witness :
    updLocalCurrency none none (some ("EUR")) ≠ none ∧
    updLocalCurrency none none (some ("EUR")) = some ("EUR") :=
  ⟨(local_currency_monotone ⟨100, "USD", some ("key"), none⟩ none none (some ("EUR"))
      (by decide)).2.2.1,
   (local_currency_monotone ⟨100, "USD", some ("key"), none⟩ none none (some ("EUR"))
      (by decide)).2.2.2.2.2 rfl rfl⟩

/-- C9: two inputs identical up to letter case of `baseCurrency` and
`manualCurrency` produce identical snapshots in every field, identical query
gates and identical currency resolution, in every evaluation state. -/
theorem case_insensitive_inputs_same_result (i1 i2 : Inputs)
    (g : QueryState GeolocationResponse) (e : QueryState ExchangeRateResponse)
    (lc : Option String)
    (hbp : i1.basePrice = i2.basePrice) (hkey : i1.apiKey = i2.apiKey)
    (hbase : jsToUpper i1.baseCurrency = jsToUpper i2.baseCurrency)
    (hman : upperManual i1 = upperManual i2) :
    evalSnapshot i1 g e lc = evalSnapshot i2 g e lc ∧
    geoEnabled i1 = geoEnabled i2 ∧
    (∀ lc', exchangeEnabled i1 lc' = exchangeEnabled i2 lc') ∧
    initLocalCurrency i1 = initLocalCurrency i2 ∧
    (∀ gc lc', updLocalCurrency (upperManual i1) gc lc' =
      updLocalCurrency (upperManual i2) gc lc') := by
  have hak : apiKeyError i1 = apiKeyError i2 := by
    unfold apiKeyError
    rw [hkey]
  have herr : errorCalc i1 g e lc = errorCalc i2 g e lc := by
    unfold errorCalc
    rw [hak]
  refine ⟨?_, ?_, ?_, ?_, ?_⟩
  · simp [evalSnapshot, upperBase, hbp, hbase, herr]
  · simp [geoEnabled, hman, hak]
  · intro lc'
    simp [exchangeEnabled, hak]
  · simp [initLocalCurrency, hman]
  · intro gc lc'
    rw [hman]

/-- C9 witness: the case-insensitivity theorem applied to `usd`/`eur` versus
`USD`/`EUR`. -/
theorem case_insensitive_inputs_same_result_witness :
    evalSnapshot ⟨100, "usd", some ("key"), some ("eur")⟩ (freshQuery GeolocationResponse)
        ⟨some ⟨"USD", [("EUR", 9/10)]⟩, none, false⟩ (some ("EUR")) =
      evalSnapshot ⟨100, "USD", some ("key"), some ("EUR")⟩ (freshQuery GeolocationResponse)
        ⟨some ⟨"USD", [("EUR", 9/10)]⟩, none, false⟩ (some ("EUR")) ∧
    geoEnabled ⟨100, "usd", some ("key"), some ("eur")⟩ =
      geoEnabled ⟨100, "USD", some ("key"), some ("EUR")⟩ ∧
    initLocalCurrency ⟨100, "usd", some ("key"), some ("eur")⟩ =
      initLocalCurrency ⟨100, "USD", some ("key"), some ("EUR")⟩ :=
  ⟨(case_insensitive_inputs_same_result ⟨100, "usd", some ("key"), some ("eur")⟩
      ⟨100, "USD", some ("key"), some ("EUR")⟩ (freshQuery GeolocationResponse)
      ⟨some ⟨"USD", [("EUR", 9/10)]⟩, none, false⟩ (some ("EUR"))
      rfl rfl (by decide) (by decide)).1,
   (case_insensitive_inputs_same_result ⟨100, "usd", some ("key"), some ("eur")⟩
      ⟨100, "USD", some ("key"), some ("EUR")⟩ (freshQuery GeolocationResponse)
      ⟨some ⟨"USD", [("EUR", 9/10)]⟩, none, false⟩ (some ("EUR"))
      rfl rfl (by decide) (by decide)).2.1,
   (case_insensitive_inputs_same_result ⟨100, "usd", some ("key"), some ("eur")⟩
      ⟨100, "USD", some ("key"), some ("EUR")⟩ (freshQuery GeolocationResponse)
      ⟨some ⟨"USD", [("EUR", 9/10)]⟩, none, false⟩ (some ("EUR"))
      rfl rfl (by decide) (by decide)).2.2.2.1⟩

/-- C10: if the fetched table maps the resolved currency to exactly 0, the
snapshot's `convertedPrice` is 0 (a zero rate counts as found, no mismatch
fires) while the `exchangeRate` field is null, because `exchangeRate || null`
coerces the falsy 0 to null. -/
theorem zero_rate_zero_price_null_rate (i : Inputs) (g : QueryState GeolocationResponse)
    (e : QueryState ExchangeRateResponse) (c : String) (d : ExchangeRateResponse)
    (hc : c ≠ "") (hd : e.data = some d)
    (h0 : lookupRate c d.conversion_rates = some 0) :
    (evalSnapshot i g e (some c)).convertedPrice = some 0 ∧
    (evalSnapshot i g e (some c)).exchangeRate = none ∧
    currencyMismatchError (some c) e.data = none := by
  have hrate : exchangeRateRaw (some c) e.data = JSRate.jnum 0 := by
    simp [exchangeRateRaw, hd, hc, h0]
  have hmm : currencyMismatchError (some c) e.data = none := by
    simp [currencyMismatchError, hd, hc, h0]
  refine ⟨?_, ?_, hmm⟩
  · have hfl0 : (⌊(1 : ℚ)/2⌋ : ℤ) = 0 := by
      rw [Int.floor_eq_iff]
      constructor <;> norm_num
    have h00 : toFixed2 0 = 0 := by
      rw [toFixed2, if_pos (le_refl (0 : ℚ))]
      rw [show ((0 : ℚ) * 100 + 1/2) = 1/2 by norm_num]
      rw [hfl0]
      norm_num
    simp [evalSnapshot, convertedPriceCalc, hrate, hmm, mul_zero, h00]
  · simp [evalSnapshot, exchangeRateField, hrate]

/-- C10 witness: the zero-rate theorem applied to a table with rate 0 for
`FOO`. -/
theorem zero_rate_zero_price_null_rate_witness :
    (evalSnapshot ⟨5, "USD", some ("key"), none⟩ (freshQuery GeolocationResponse)
        ⟨some ⟨"USD", [("FOO", 0)]⟩, none, false⟩ (some ("FOO"))).convertedPrice = some 0 ∧
    (evalSnapshot ⟨5, "USD", some ("key"), none⟩ (freshQuery GeolocationResponse)
        ⟨some ⟨"USD", [("FOO", 0)]⟩, none, false⟩ (some ("FOO"))).exchangeRate = none :=
  ⟨(zero_rate_zero_price_null_rate _ _ _ _ _ (by decide) rfl (by simp [lookupRate])).1,
   (zero_rate_zero_price_null_rate _ _ _ _ _ (by decide) rfl (by simp [lookupRate])).2.1⟩

/-- The modelled rounding resolves negative exact ties away from zero, as
ECMAScript `toFixed` does: -0.125 rounds to -0.13 (and -0.125 is exactly
representable as a binary64 double, so this case occurs in the program). -/
theorem toFixed2_neg_tie : toFixed2 (-((1 : ℚ)/8)) = -(13/100) := by
  rw [toFixed2, if_neg (by norm_num)]
  rw [show (-(-((1 : ℚ)/8)) * 100 + 1/2) = (((13 : ℤ) : ℚ)) by norm_num]
  rw [Int.floor_intCast]
  norm_num

/-- C7: for every rational `basePrice` — including zero and negative values,
which convert with no domain rejection — and every found rate `q` with no
mismatch, `convertedPrice` is `basePrice * q` rounded to exactly 2 decimal
places half away from zero: it equals the spec-side rounding
`specRound2HalfAwayFromZero`, and it is the multiple `n/100` whose distance
to the product is at most half a cent, with ties (distance exactly half a
cent) resolved away from zero in both sign cases. -/
theorem converted_price_rounds_half_away_from_zero (i : Inputs)
    (g : QueryState GeolocationResponse) (e : QueryState ExchangeRateResponse)
    (lc : Option String) (q : ℚ)
    (hq : exchangeRateRaw lc e.data = JSRate.jnum q)
    (hmm : currencyMismatchError lc e.data = none) :
    (evalSnapshot i g e lc).convertedPrice =
      some (specRound2HalfAwayFromZero (i.basePrice * q)) ∧
    ∃ n : ℤ, (evalSnapshot i g e lc).convertedPrice = some ((n : ℚ) / 100) ∧
      (0 ≤ i.basePrice * q →
        -(1/2) ≤ i.basePrice * q * 100 - (n : ℚ) ∧
        i.basePrice * q * 100 - (n : ℚ) < 1/2) ∧
      (i.basePrice * q < 0 →
        -(1/2) < i.basePrice * q * 100 - (n : ℚ) ∧
        i.basePrice * q * 100 - (n : ℚ) ≤ 1/2) := by
  have hcp : (evalSnapshot i g e lc).convertedPrice =
      some (toFixed2 (i.basePrice * q)) := by
    simp [evalSnapshot, convertedPriceCalc, hq, hmm]
  have hspec : toFixed2 (i.basePrice * q) =
      specRound2HalfAwayFromZero (i.basePrice * q) := by
    rw [toFixed2, specRound2HalfAwayFromZero]
  refine ⟨by rw [hcp, hspec], ?_⟩
  by_cases hx : 0 ≤ i.basePrice * q
  · refine ⟨⌊i.basePrice * q * 100 + 1/2⌋, ?_, ?_, ?_⟩
    · rw [hcp, toFixed2, if_pos hx]
    · intro _
      constructor
      · have h := Int.floor_le (i.basePrice * q * 100 + 1/2)
        linarith
      · have h := Int.lt_floor_add_one (i.basePrice * q * 100 + 1/2)
        linarith
    · intro hneg
      exact absurd hx (not_le.mpr hneg)
  · refine ⟨-⌊-(i.basePrice * q) * 100 + 1/2⌋, ?_, ?_, ?_⟩
    · rw [hcp, toFixed2, if_neg hx]
      congr 1
      push_cast
      ring
    · intro hpos
      exact absurd hpos hx
    · intro _
      constructor
      · have h := Int.lt_floor_add_one (-(i.basePrice * q) * 100 + 1/2)
        push_cast
        linarith
      · have h := Int.floor_le (-(i.basePrice * q) * 100 + 1/2)
        push_cast
        linarith

/-- C7 witness: the rounding theorem applied to `basePrice = 100`, rate
`0.9`. -/
theorem converted_price_rounds_half_away_from_zero_witness :
    (evalSnapshot ⟨100, "USD", some ("key"), none⟩ (freshQuery GeolocationResponse)
        ⟨some ⟨"USD", [("EUR", 9/10)]⟩, none, false⟩ (some ("EUR"))).convertedPrice =
      some (specRound2HalfAwayFromZero ((100 : ℚ) * (9/10))) :=
  (converted_price_rounds_half_away_from_zero ⟨100, "USD", some ("key"), none⟩
      (freshQuery GeolocationResponse) ⟨some ⟨"USD", [("EUR", 9/10)]⟩, none, false⟩
      (some ("EUR")) (9/10) (by simp [exchangeRateRaw, lookupRate])
      (by simp [currencyMismatchError, lookupRate])).1

theorem renderStep_saturated (i : Inputs) (g : QueryState GeolocationResponse)
    (e : QueryState ExchangeRateResponse) (ri : RenderInput) (s : HookState)
    (hs : Saturated i g e s) (hg : ri.geo = g) (he : ri.ex = e) :
    (renderStep i ri s).2 = [] ∧
    (renderStep i ri s).1.localCurrency = s.localCurrency ∧
    Saturated i g e (renderStep i ri s).1 := by
  obtain ⟨h1, h2, h3⟩ := hs
  have hsnap : snapOf i ri s = evalSnapshot i g e s.localCurrency := by
    rw [snapOf, hg, he]
  have hlcd : lcDepsOf i ri = (upperManual i, g.data.map GeolocationResponse.currency) := by
    rw [lcDepsOf, hg]
  have hnl : newLcOf i ri s = s.localCurrency := by
    rw [newLcOf, hlcd, h1]
    simp
  refine ⟨?_, ?_, ?_, ?_, ?_⟩
  · show succEventsOf i ri s ++ errEventsOf i ri s = []
    rw [succEventsOf, errEventsOf, hsnap]
    rw [h2, h3]
    simp
  · exact hnl
  · show some (lcDepsOf i ri) = _
    rw [hlcd]
  · show some (succDepsOf (snapOf i ri s)) = _
    rw [hsnap, show (renderStep i ri s).1.localCurrency = s.localCurrency from hnl]
  · show some (errDepsOf (snapOf i ri s)) = _
    rw [hsnap, show (renderStep i ri s).1.localCurrency = s.localCurrency from hnl]

theorem runRenders_saturated (i : Inputs) (g : QueryState GeolocationResponse)
    (e : QueryState ExchangeRateResponse) (cfg : ℕ → RenderInput) :
    ∀ (m start : ℕ) (s : HookState), Saturated i g e s →
    (∀ j, start ≤ j → j < start + m → (cfg j).geo = g ∧ (cfg j).ex = e) →
    (runRenders i cfg start m s).2 = [] ∧
    (runRenders i cfg start m s).1.localCurrency = s.localCurrency ∧
    Saturated i g e (runRenders i cfg start m s).1 := by
  intro m
  induction m with
  | zero =>
    intro start s hs _
    exact ⟨rfl, rfl, hs⟩
  | succ m ih =>
    intro start s hs hcfg
    have hgeo := (hcfg start le_rfl (by omega)).1
    have hex := (hcfg start le_rfl (by omega)).2
    have hstep := renderStep_saturated i g e (cfg start) s hs hgeo hex
    have hrec := ih (start+1) (renderStep i (cfg start) s).1 hstep.2.2
      (fun j hj1 hj2 => hcfg j (by omega) (by omega))
    simp only [runRenders]
    refine ⟨?_, ?_, hrec.2.2⟩
    · rw [hstep.1, hrec.1]
      rfl
    · rw [hrec.2.1, hstep.2.1]

theorem renderStep_mount (i : Inputs) (g : QueryState GeolocationResponse)
    (e : QueryState ExchangeRateResponse) (ri : RenderInput) (lc : Option String)
    (hg : ri.geo = g) (he : ri.ex = e)
    (hfix : updLocalCurrency (upperManual i) (g.data.map GeolocationResponse.currency) lc = lc)
    (hload : (evalSnapshot i g e lc).isLoading = true) :
    (renderStep i ri (startStateAt lc)).2 = [] ∧
    (renderStep i ri (startStateAt lc)).1.localCurrency = lc ∧
    Saturated i g e (renderStep i ri (startStateAt lc)).1 := by
  have hsnap : snapOf i ri (startStateAt lc) = evalSnapshot i g e lc := by
    rw [snapOf, hg, he]
    rfl
  have hnl : newLcOf i ri (startStateAt lc) = lc := by
    rw [newLcOf]
    have : (startStateAt lc).lcDeps = none := rfl
    rw [this]
    simp only [startStateAt]
    rw [hg]
    simpa using hfix
  refine ⟨?_, ?_, ?_, ?_, ?_⟩
  · show succEventsOf i ri (startStateAt lc) ++ errEventsOf i ri (startStateAt lc) = []
    rw [succEventsOf, errEventsOf, hsnap, hload]
    have hd1 : (startStateAt lc).succDeps = none := rfl
    have hd2 : (startStateAt lc).errDeps = none := rfl
    rw [hd1, hd2]
    cases (evalSnapshot i g e lc).error <;> cases ri.onError <;> simp
  · exact hnl
  · show some (lcDepsOf i ri) = _
    rw [lcDepsOf, hg]
  · show some (succDepsOf (snapOf i ri (startStateAt lc))) = _
    rw [hsnap, show (renderStep i ri (startStateAt lc)).1.localCurrency = lc from hnl]
  · show some (errDepsOf (snapOf i ri (startStateAt lc))) = _
    rw [hsnap, show (renderStep i ri (startStateAt lc)).1.localCurrency = lc from hnl]

theorem renderStep_settle (i : Inputs) (g : QueryState GeolocationResponse)
    (es : QueryState ExchangeRateResponse) (ri : RenderInput) (s : HookState)
    (hg : ri.geo = g) (he : ri.ex = es)
    (hfix : updLocalCurrency (upperManual i) (g.data.map GeolocationResponse.currency)
      s.localCurrency = s.localCurrency)
    (hlcd : s.lcDeps = none ∨
      s.lcDeps = some (upperManual i, g.data.map GeolocationResponse.currency))
    (hsd : s.succDeps ≠ some (succDepsOf (evalSnapshot i g es s.localCurrency)))
    (hed : s.errDeps ≠ some (errDepsOf (evalSnapshot i g es s.localCurrency))) :
    (renderStep i ri s).2 =
      (if (evalSnapshot i g es s.localCurrency).isLoading = false ∧
          (evalSnapshot i g es s.localCurrency).error = none ∧
          (evalSnapshot i g es s.localCurrency).convertedPrice ≠ none then
        (match ri.onSuccess with
         | some cb => [Event.success cb (evalSnapshot i g es s.localCurrency)]
         | none => [])
      else []) ++
      (match (evalSnapshot i g es s.localCurrency).error, ri.onError with
       | some err, some cb =>
           if (evalSnapshot i g es s.localCurrency).isLoading = false then
             [Event.failure cb err]
           else []
       | _, _ => []) ∧
    (renderStep i ri s).1.localCurrency = s.localCurrency ∧
    Saturated i g es (renderStep i ri s).1 := by
  have hsnap : snapOf i ri s = evalSnapshot i g es s.localCurrency := by
    rw [snapOf, hg, he]
  have hnl : newLcOf i ri s = s.localCurrency := by
    rw [newLcOf, lcDepsOf, hg]
    rcases hlcd with h0 | h0 <;> rw [h0] <;> simp [hfix]
  refine ⟨?_, ?_, ?_, ?_, ?_⟩
  · show succEventsOf i ri s ++ errEventsOf i ri s = _
    rw [succEventsOf, errEventsOf, hsnap]
    rw [if_neg hsd, if_neg hed]
  · exact hnl
  · show some (lcDepsOf i ri) = _
    rw [lcDepsOf, hg]
  · show some (succDepsOf (snapOf i ri s)) = _
    rw [hsnap, show (renderStep i ri s).1.localCurrency = s.localCurrency from hnl]
  · show some (errDepsOf (snapOf i ri s)) = _
    rw [hsnap, show (renderStep i ri s).1.localCurrency = s.localCurrency from hnl]

theorem runRenders_add (i : Inputs) (cfg : ℕ → RenderInput) :
    ∀ (a b start : ℕ) (s : HookState),
    runRenders i cfg start (a + b) s =
      ((runRenders i cfg (start + a) b (runRenders i cfg start a s).1).1,
       (runRenders i cfg start a s).2 ++
         (runRenders i cfg (start + a) b (runRenders i cfg start a s).1).2) := by
  intro a
  induction a with
  | zero =>
    intro b start s
    simp [runRenders]
  | succ a ih =>
    intro b start s
    rw [show a + 1 + b = (a + b) + 1 by omega]
    simp only [runRenders]
    rw [ih b (start+1) (renderStep i (cfg start) s).1]
    rw [show start + (a + 1) = start + 1 + a by omega]
    simp [List.append_assoc]

theorem settled_run_events (i : Inputs) (g : QueryState GeolocationResponse)
    (ep es : QueryState ExchangeRateResponse) (k n : ℕ) (cbS cbE : ℕ → ℕ)
    (lc : Option String) (hk : k ≤ n)
    (hfix : updLocalCurrency (upperManual i) (g.data.map GeolocationResponse.currency) lc = lc)
    (hpend : (evalSnapshot i g ep lc).isLoading = true)
    (hSload : (evalSnapshot i g es lc).isLoading = false) :
    (runRenders i (settledCfg g ep es k cbS cbE) 0 (n+1) (startStateAt lc)).2 =
      (if (evalSnapshot i g es lc).error = none ∧
          (evalSnapshot i g es lc).convertedPrice ≠ none then
        [Event.success (cbS k) (evalSnapshot i g es lc)]
      else []) ++
      (match (evalSnapshot i g es lc).error with
       | some err => [Event.failure (cbE k) err]
       | none => []) := by
  have hCFGp : ∀ j, j < k → (settledCfg g ep es k cbS cbE j).ex = ep := by
    intro j hj
    simp [settledCfg, hj]
  have hCFGs : ∀ j, k ≤ j → (settledCfg g ep es k cbS cbE j).ex = es := by
    intro j hj
    simp [settledCfg, Nat.not_lt.mpr hj]
  -- Phase A: the first k renders (pending) emit nothing.
  have phaseA : (runRenders i (settledCfg g ep es k cbS cbE) 0 k (startStateAt lc)).2 = [] ∧
      (runRenders i (settledCfg g ep es k cbS cbE) 0 k (startStateAt lc)).1.localCurrency = lc ∧
      ((runRenders i (settledCfg g ep es k cbS cbE) 0 k (startStateAt lc)).1.lcDeps = none ∨
        (runRenders i (settledCfg g ep es k cbS cbE) 0 k (startStateAt lc)).1.lcDeps =
          some (upperManual i, g.data.map GeolocationResponse.currency)) ∧
      ((runRenders i (settledCfg g ep es k cbS cbE) 0 k (startStateAt lc)).1.succDeps = none ∨
        (runRenders i (settledCfg g ep es k cbS cbE) 0 k (startStateAt lc)).1.succDeps =
          some (succDepsOf (evalSnapshot i g ep lc))) ∧
      ((runRenders i (settledCfg g ep es k cbS cbE) 0 k (startStateAt lc)).1.errDeps = none ∨
        (runRenders i (settledCfg g ep es k cbS cbE) 0 k (startStateAt lc)).1.errDeps =
          some (errDepsOf (evalSnapshot i g ep lc))) := by
    cases k with
    | zero => exact ⟨rfl, rfl, Or.inl rfl, Or.inl rfl, Or.inl rfl⟩
    | succ m =>
      have hex0 : (settledCfg g ep es (m+1) cbS cbE 0).ex = ep := hCFGp 0 (by omega)
      have hmount := renderStep_mount i g ep (settledCfg g ep es (m+1) cbS cbE 0) lc rfl
        hex0 hfix hpend
      have hrun := runRenders_saturated i g ep (settledCfg g ep es (m+1) cbS cbE) m 1
        (renderStep i (settledCfg g ep es (m+1) cbS cbE 0) (startStateAt lc)).1 hmount.2.2
        (fun j hj1 hj2 => ⟨rfl, hCFGp j (by omega)⟩)
      have hlc : (runRenders i (settledCfg g ep es (m+1) cbS cbE) 1 m
          (renderStep i (settledCfg g ep es (m+1) cbS cbE 0) (startStateAt lc)).1).1.localCurrency
            = lc := by
        rw [hrun.2.1, hmount.2.1]
      obtain ⟨hs1, hs2, hs3⟩ := hrun.2.2
      simp only [runRenders]
      refine ⟨?_, hlc, Or.inr hs1, Or.inr ?_, Or.inr ?_⟩
      · rw [hmount.1, hrun.1]
        rfl
      · rw [hs2, hlc]
      · rw [hs3, hlc]
  -- The settle render at index k.
  have hAlc := phaseA.2.1
  have hfixA : updLocalCurrency (upperManual i) (g.data.map GeolocationResponse.currency)
      (runRenders i (settledCfg g ep es k cbS cbE) 0 k (startStateAt lc)).1.localCurrency =
      (runRenders i (settledCfg g ep es k cbS cbE) 0 k (startStateAt lc)).1.localCurrency := by
    rw [hAlc]
    exact hfix
  have hsdA : (runRenders i (settledCfg g ep es k cbS cbE) 0 k (startStateAt lc)).1.succDeps ≠
      some (succDepsOf (evalSnapshot i g es
        (runRenders i (settledCfg g ep es k cbS cbE) 0 k (startStateAt lc)).1.localCurrency)) := by
    rw [hAlc]
    rcases phaseA.2.2.2.1 with h0 | h0 <;> rw [h0]
    · simp
    · intro hcontra
      have heq := Option.some.inj hcontra
      have : (evalSnapshot i g ep lc).isLoading = (evalSnapshot i g es lc).isLoading :=
        congrArg Prod.fst heq
      rw [hpend, hSload] at this
      simp at this
  have hedA : (runRenders i (settledCfg g ep es k cbS cbE) 0 k (startStateAt lc)).1.errDeps ≠
      some (errDepsOf (evalSnapshot i g es
        (runRenders i (settledCfg g ep es k cbS cbE) 0 k (startStateAt lc)).1.localCurrency)) := by
    rw [hAlc]
    rcases phaseA.2.2.2.2 with h0 | h0 <;> rw [h0]
    · simp
    · intro hcontra
      have heq := Option.some.inj hcontra
      have : (evalSnapshot i g ep lc).isLoading = (evalSnapshot i g es lc).isLoading :=
        congrArg Prod.fst heq
      rw [hpend, hSload] at this
      simp at this
  have hstep := renderStep_settle i g es (settledCfg g ep es k cbS cbE k)
    (runRenders i (settledCfg g ep es k cbS cbE) 0 k (startStateAt lc)).1 rfl
    (hCFGs k le_rfl) hfixA
    (by rw [← hAlc] at phaseA ⊢; exact phaseA.2.2.1) hsdA hedA
  -- Phase C: the remaining renders after the settle render emit nothing.
  have phaseC := runRenders_saturated i g es (settledCfg g ep es k cbS cbE) (n - k) (k + 1)
    (renderStep i (settledCfg g ep es k cbS cbE k)
      (runRenders i (settledCfg g ep es k cbS cbE) 0 k (startStateAt lc)).1).1
    hstep.2.2 (fun j hj1 hj2 => ⟨rfl, hCFGs j (by omega)⟩)
  -- Assemble the full run.
  rw [show n + 1 = k + (1 + (n - k)) by omega]
  rw [runRenders_add i (settledCfg g ep es k cbS cbE) k (1 + (n - k)) 0 (startStateAt lc)]
  rw [runRenders_add i (settledCfg g ep es k cbS cbE) 1 (n - k) (0 + k)
    (runRenders i (settledCfg g ep es k cbS cbE) 0 k (startStateAt lc)).1]
  simp only [Nat.zero_add]
  rw [phaseA.1]
  simp only [runRenders, List.append_nil, List.nil_append]
  rw [phaseC.1, hstep.1, hAlc]
  have honS : (settledCfg g ep es k cbS cbE k).onSuccess = some (cbS k) := rfl
  have honE : (settledCfg g ep es k cbS cbE k).onError = some (cbE k) := rfl
  rw [honS, honE]
  by_cases hE : (evalSnapshot i g es lc).error = none
  · rw [hE]
    by_cases hP : (evalSnapshot i g es lc).convertedPrice ≠ none
    · rw [if_pos ⟨hSload, rfl, hP⟩, if_pos ⟨rfl, hP⟩]
      simp
    · rw [if_neg (by intro hcon; exact hP hcon.2.2), if_neg (by intro hcon; exact hP hcon.2)]
      simp
  · obtain ⟨err, herr⟩ := Option.ne_none_iff_exists'.mp hE
    rw [herr]
    rw [if_neg (by simp), if_neg (by simp)]
    simp [hSload]

/-- C2: over a run of arbitrarily many re-evaluations with unchanged inputs
and fresh callback identities on every render — the exchange query pending
before render `k` and settled from render `k` on — exactly one notification
fires: `onSuccess` once with the settled snapshot when the outcome is
Settled-Success, `onError` once with the settled error when it is
Settled-Error, and the invocation uses the callback supplied at the settling
render (the latest at invocation time), never an earlier one. -/
theorem notifications_fire_once (i : Inputs) (g : QueryState GeolocationResponse)
    (ep es : QueryState ExchangeRateResponse) (lc : Option String)
    (k n : ℕ) (cbS cbE : ℕ → ℕ) (err : Err) (hk : k ≤ n)
    (hfix : updLocalCurrency (upperManual i) (g.data.map GeolocationResponse.currency) lc = lc)
    (hpend : (evalSnapshot i g ep lc).isLoading = true) :
    ((evalSnapshot i g es lc).isLoading = false →
      (evalSnapshot i g es lc).error = none →
      (evalSnapshot i g es lc).convertedPrice ≠ none →
      (runRenders i (settledCfg g ep es k cbS cbE) 0 (n+1) (startStateAt lc)).2 =
        [Event.success (cbS k) (evalSnapshot i g es lc)]) ∧
    ((evalSnapshot i g es lc).isLoading = false →
      (evalSnapshot i g es lc).error = some err →
      (runRenders i (settledCfg g ep es k cbS cbE) 0 (n+1) (startStateAt lc)).2 =
        [Event.failure (cbE k) err]) := by
  constructor
  · intro hL hE hP
    rw [settled_run_events i g ep es k n cbS cbE lc hk hfix hpend hL]
    rw [hE]
    simp [hP]
  · intro hL hE
    rw [settled_run_events i g ep es k n cbS cbE lc hk hfix hpend hL]
    rw [hE]
    simp

/-- C2 witness: a 4-render run (pending, settle at render 1, two further
re-evaluations) fires `onSuccess` exactly once, with render 1's callback
identity 11. -/
theorem notifications_fire_once_witness :
    (runRenders ⟨100, "USD", some ("k"), some ("EUR")⟩
        (settledCfg ⟨none, none, false⟩ ⟨none, none, true⟩
          ⟨some ⟨"USD", [("EUR", 9/10)]⟩, none, false⟩ 1 (fun j => j + 10) (fun j => j + 20))
        0 3 (startStateAt (some ("EUR")))).2 =
      [Event.success 11 (evalSnapshot ⟨100, "USD", some ("k"), some ("EUR")⟩ ⟨none, none, false⟩
        ⟨some ⟨"USD", [("EUR", 9/10)]⟩, none, false⟩ (some ("EUR")))] :=
  (notifications_fire_once ⟨100, "USD", some ("k"), some ("EUR")⟩ ⟨none, none, false⟩
      ⟨none, none, true⟩ ⟨some ⟨"USD", [("EUR", 9/10)]⟩, none, false⟩ (some ("EUR"))
      1 2 (fun j => j + 10) (fun j => j + 20) ⟨"x"⟩ (by omega)
      (by decide) (by decide)).1 (by decide)
    (by
      simp only [evalSnapshot, errorCalc, currencyMismatchError, lookupRate, apiKeyError]
      decide)
    (by simp [evalSnapshot, convertedPriceCalc, exchangeRateRaw, lookupRate,
      currencyMismatchError])
